import Mathlib

/-!
Shallow embedding of the scoring core of the SportsLink application
(`app.py`, `models.py`): the deterministic matcher
`match_players_to_requirement`, the recommendation scorer
`ai_recommend_players`, the leaderboard composite score, and the pairwise
player comparison.  Python strings are modelled as lists of characters,
Python floats as rationals, and Python's `round` (half to even) is made
explicit.
-/

namespace SportsLink

/-- Python strings are modelled as lists of characters. -/
abbrev Str := List Char

/-- Python's `str.lower()`. -/
def lower (s : Str) : Str := s.map Char.toLower

/-- Python's `str.strip()`: drop whitespace from both ends. -/
def trim (s : Str) : Str :=
  ((s.dropWhile Char.isWhitespace).reverse.dropWhile Char.isWhitespace).reverse

/-- Python's `s.split(',')`: split on commas, keeping empty pieces
(`""` splits to `[""]`, `"a,"` to `["a", ""]`). -/
def splitComma (s : Str) : List Str :=
  s.foldr (fun c acc =>
    if c = ',' then [] :: acc
    else
      match acc with
      | t :: rest => (c :: t) :: rest
      | [] => [[c]]) [[]]

/-- The skill parse used by the matcher and the recommender
(`app.py` lines 67-68, 78-79, 112-113, 118-119):
`set(s.strip().lower() for s in skills.split(',') if s.strip())`. -/
def parseSkills (s : Str) : Finset Str :=
  (((splitComma s).filter (fun t => trim t ≠ [])).map (fun t => lower (trim t))).toFinset

/-- `PlayerProfile.skills_list` / `TeamRequirement.skills_list`
(`models.py` lines 45-46, 71-72):
`[s.strip() for s in skills.split(',') if s.strip()]` — trimmed but NOT
lowercased, duplicates kept. -/
def skills_list (s : Str) : List Str :=
  ((splitComma s).filter (fun t => trim t ≠ [])).map trim

/-- Python's built-in `round` to the nearest integer, halves to even. -/
def pyRound (q : ℚ) : ℤ :=
  if q - ⌊q⌋ < 1/2 then ⌊q⌋
  else if 1/2 < q - ⌊q⌋ then ⌊q⌋ + 1
  else if ⌊q⌋ % 2 = 0 then ⌊q⌋ else ⌊q⌋ + 1

/-- Python's `round(q, 1)`: round to one decimal place, halves to even. -/
def round1 (q : ℚ) : ℚ := (pyRound (q * 10) : ℚ) / 10

/-- A player profile (`models.py` lines 28-51) together with the data the
scoring core reads through it: the list of its 1–5 star ratings, the number
of its achievements, and its profile-view count. -/
structure PlayerProfile where
  id : ℕ
  user_id : ℕ
  sport : Str
  position : Str
  skills : Str
  experience_years : ℕ
  location : Str
  profile_views : ℕ
  ratings : List ℕ
  achievements : ℕ
deriving DecidableEq

/-- A team requirement (`models.py` lines 57-72). -/
structure TeamRequirement where
  sport : Str
  position : Str
  skills_required : Str
  min_experience : ℕ
  location : Str
deriving DecidableEq

/-- An interest record (`models.py` lines 78-89): a (player, requirement)
pair used as the social-proof signal. -/
structure Interest where
  player_id : ℕ
  requirement_id : ℕ
deriving DecidableEq

/-- `PlayerProfile.avg_rating` (`models.py` lines 48-51): mean of the
ratings rounded to one decimal, `0` when there are none. -/
def avg_rating (p : PlayerProfile) : ℚ :=
  if p.ratings = [] then 0
  else round1 ((p.ratings.sum : ℚ) / (p.ratings.length : ℚ))

/-- A result entry of the deterministic matcher (`app.py` lines 89-94). -/
structure MatchResult where
  player : PlayerProfile
  score : ℕ
  matched_skills : Finset Str
  total_skills : ℕ
deriving DecidableEq

/-- The per-player score of the deterministic matcher
(`app.py` lines 70-86): sport +3, position +2, experience +1, +1 per
matched skill, rating bonus +2 (avg ≥ 4.5) or +1 (avg ≥ 3.5). -/
def matchScore (req : TeamRequirement) (p : PlayerProfile) : ℕ :=
  (if lower p.sport = lower req.sport then 3 else 0)
  + (if lower p.position = lower req.position then 2 else 0)
  + (if req.min_experience ≤ p.experience_years then 1 else 0)
  + (parseSkills req.skills_required ∩ parseSkills p.skills).card
  + (if (9:ℚ)/2 ≤ avg_rating p then 2
     else if (7:ℚ)/2 ≤ avg_rating p then 1 else 0)

/-- The list built by the matcher's loop before sorting
(`app.py` lines 70-94): one entry per player with positive score, in the
store's player iteration order. -/
def matchResultsRaw (req : TeamRequirement) (players : List PlayerProfile) :
    List MatchResult :=
  players.filterMap (fun p =>
    if 0 < matchScore req p then
      some { player := p
             score := matchScore req p
             matched_skills := parseSkills req.skills_required ∩ parseSkills p.skills
             total_skills := (parseSkills req.skills_required).card }
    else none)

/-- `match_players_to_requirement` (`app.py` lines 56-97): filter the
players to those with positive score, then stable-sort descending by
score (Python's `list.sort(key=..., reverse=True)` is stable). -/
def match_players_to_requirement (req : TeamRequirement)
    (players : List PlayerProfile) : List MatchResult :=
  (matchResultsRaw req players).mergeSort (fun a b => decide (b.score ≤ a.score))

/-- Factor 1 of the recommender (`app.py` lines 122-128): percentage skill
overlap scaled to 0-40, `0` when the requirement parses to no skills. -/
def skillPct (req : TeamRequirement) (p : PlayerProfile) : ℚ :=
  if parseSkills req.skills_required ≠ ∅ then
    ((parseSkills req.skills_required ∩ parseSkills p.skills).card : ℚ)
      / ((parseSkills req.skills_required).card : ℚ) * 40
  else 0

/-- Factor 2 (`app.py` line 131): sport match, 20 or 0 (an integer in the
source). -/
def sportScore (req : TeamRequirement) (p : PlayerProfile) : ℤ :=
  if lower p.sport = lower req.sport then 20 else 0

/-- Factor 3 (`app.py` line 136): position match, 15 or 0. -/
def posScore (req : TeamRequirement) (p : PlayerProfile) : ℤ :=
  if lower p.position = lower req.position then 15 else 0

/-- Factor 4 (`app.py` lines 141-145): experience fit, 0-10. -/
def expScore (req : TeamRequirement) (p : PlayerProfile) : ℚ :=
  if 0 < req.min_experience then
    min ((p.experience_years : ℚ) / (req.min_experience : ℚ)) 2 * 5
  else if 0 < p.experience_years then 10 else 5

/-- Factor 5 (`app.py` line 150): rating score, `avg_rating * 2`. -/
def ratingScore (p : PlayerProfile) : ℚ := avg_rating p * 2

/-- The social-proof count (`app.py` line 155): number of Interest records
whose `player_id` is this player's `user_id`, across all requirements. -/
def interestCount (interests : List Interest) (p : PlayerProfile) : ℕ :=
  (interests.filter (fun i => i.player_id = p.user_id)).length

/-- Factor 6 (`app.py` line 156): social proof, `min(count * 1.5, 5)`. -/
def socialScore (interests : List Interest) (p : PlayerProfile) : ℚ :=
  min ((interestCount interests p : ℚ) * (3/2)) 5

/-- The location-bonus condition (`app.py` lines 161-166): both locations
non-empty and the requirement's first comma-segment (trimmed, lowercased)
a non-empty substring of the player's. -/
def locMatch (req : TeamRequirement) (p : PlayerProfile) : Bool :=
  req.location ≠ [] ∧ p.location ≠ [] ∧
    (let req_city := lower (trim ((splitComma req.location).headI))
     let player_city := lower (trim ((splitComma p.location).headI))
     req_city ≠ [] ∧ req_city <:+: player_city)

/-- Factor 7 (`app.py` lines 160-167): location bonus, 5 or 0 (an integer
in the source). -/
def locScore (req : TeamRequirement) (p : PlayerProfile) : ℤ :=
  if locMatch req p then 5 else 0

/-- The unrounded recommendation score (`app.py` variable `ai_score`):
sum of the seven factors. -/
def aiScore (interests : List Interest) (req : TeamRequirement)
    (p : PlayerProfile) : ℚ :=
  skillPct req p + (sportScore req p : ℚ) + (posScore req p : ℚ)
    + expScore req p + ratingScore p + socialScore interests p
    + (locScore req p : ℚ)

/-- The per-factor breakdown dict (`app.py` lines 128-168): each factor as
stored, the fractional ones rounded to the nearest integer. -/
structure Breakdown where
  skill_match : ℤ
  sport : ℤ
  position : ℤ
  experience : ℤ
  rating : ℤ
  social : ℤ
  location : ℤ
deriving DecidableEq

/-- A result entry of the recommender (`app.py` lines 171-177): the stored
`ai_score` is rounded to one decimal; `confidence = min(round(ai_score), 100)`. -/
structure RecResult where
  player : PlayerProfile
  ai_score : ℚ
  matched_skills : Finset Str
  breakdown : Breakdown
  confidence : ℤ
deriving DecidableEq

/-- The dict appended for an eligible player (`app.py` lines 171-177). -/
def recEntry (interests : List Interest) (req : TeamRequirement)
    (p : PlayerProfile) : RecResult :=
  { player := p
    ai_score := round1 (aiScore interests req p)
    matched_skills := parseSkills req.skills_required ∩ parseSkills p.skills
    breakdown :=
      { skill_match := pyRound (skillPct req p)
        sport := sportScore req p
        position := posScore req p
        experience := pyRound (expScore req p)
        rating := pyRound (ratingScore p)
        social := pyRound (socialScore interests p)
        location := locScore req p }
    confidence := min (pyRound (aiScore interests req p)) 100 }

/-- The list built by the recommender's loop before sorting
(`app.py` lines 115-177): one entry per player with `ai_score > 10`, in
the store's player iteration order. -/
def recResultsRaw (interests : List Interest) (req : TeamRequirement)
    (players : List PlayerProfile) : List RecResult :=
  players.filterMap (fun p =>
    if 10 < aiScore interests req p then some (recEntry interests req p) else none)

/-- `ai_recommend_players` (`app.py` lines 103-180): filter to players
with unrounded score above 10, stable-sort descending on the stored
(1-decimal-rounded) `ai_score`, then truncate to `top_n`. -/
def ai_recommend_players (interests : List Interest) (req : TeamRequirement)
    (players : List PlayerProfile) (top_n : ℕ) : List RecResult :=
  ((recResultsRaw interests req players).mergeSort
    (fun a b => decide (b.ai_score ≤ a.ai_score))).take top_n

/-- The composite leaderboard score (`app.py` lines 716-722). -/
def composite (p : PlayerProfile) : ℚ :=
  avg_rating p * 20
    + ((min (p.experience_years * 3) 30 : ℕ) : ℚ)
    + min ((p.profile_views : ℚ) * (1/2)) 20
    + ((min ((skills_list p.skills).length * 2) 20 : ℕ) : ℚ)
    + ((min (p.achievements * 5) 10 : ℕ) : ℚ)

/-- The comparison dict of `compare_players` (`app.py` lines 835-849). -/
structure Comparison where
  common_skills : Finset Str
  p1_unique_skills : Finset Str
  p2_unique_skills : Finset Str
  p1_score : ℚ
  p2_score : ℚ
deriving DecidableEq

/-- The per-player comparison score (`app.py` lines 839-848). -/
def compareScore (p : PlayerProfile) : ℚ :=
  avg_rating p * 20
    + ((min (p.experience_years * 5) 50 : ℕ) : ℚ)
    + ((min ((skills_list p.skills).length * 3) 30 : ℕ) : ℚ)

/-- The comparison built by `compare_players` for two existing, distinct
players (`app.py` lines 830-849): skill sets come from `skills_list`
(trimmed tokens, case kept as written). -/
def comparison (p1 p2 : PlayerProfile) : Comparison :=
  { common_skills := (skills_list p1.skills).toFinset ∩ (skills_list p2.skills).toFinset
    p1_unique_skills := (skills_list p1.skills).toFinset \ (skills_list p2.skills).toFinset
    p2_unique_skills := (skills_list p2.skills).toFinset \ (skills_list p1.skills).toFinset
    p1_score := compareScore p1
    p2_score := compareScore p2 }

/-! ### General lemmas about the embedding -/

/-- `pyRound` never overshoots by more than one half. -/
theorem pyRound_le (q : ℚ) : (pyRound q : ℚ) ≤ q + 1/2 := by
  have hf := Int.floor_le q
  rw [pyRound]
  split_ifs with h1 h2 h3 <;> push_cast <;> linarith

/-- `pyRound` never undershoots by more than one half. -/
theorem le_pyRound (q : ℚ) : q - 1/2 ≤ (pyRound q : ℚ) := by
  have hf := Int.lt_floor_add_one q
  rw [pyRound]
  split_ifs with h1 h2 h3 <;> push_cast <;> linarith

/-- The average rating of a player whose ratings are all at most 5 is at
most 5. -/
theorem avg_rating_le_five (p : PlayerProfile) (h : ∀ r ∈ p.ratings, r ≤ 5) :
    avg_rating p ≤ 5 := by
  rw [avg_rating]
  split_ifs with hnil
  · norm_num
  · have hlen : 0 < (p.ratings.length : ℚ) := by
      have := List.length_pos.2 hnil
      exact_mod_cast this
    have hsum : (p.ratings.sum : ℚ) ≤ 5 * (p.ratings.length : ℚ) := by
      have hn : p.ratings.sum ≤ p.ratings.length * 5 := by
        calc p.ratings.sum ≤ p.ratings.length • 5 := List.sum_le_card_nsmul _ 5 h
        _ = p.ratings.length * 5 := by rw [smul_eq_mul]
      have hq : (p.ratings.sum : ℚ) ≤ (p.ratings.length : ℚ) * 5 := by exact_mod_cast hn
      linarith
    have hq : (p.ratings.sum : ℚ) / (p.ratings.length : ℚ) ≤ 5 :=
      (div_le_iff₀ hlen).2 (by linarith)
    have h10 : (p.ratings.sum : ℚ) / (p.ratings.length : ℚ) * 10 ≤ 50 := by linarith
    have hle : (pyRound ((p.ratings.sum : ℚ) / (p.ratings.length : ℚ) * 10) : ℚ)
        ≤ 101/2 := le_trans (pyRound_le _) (by linarith)
    have hz : pyRound ((p.ratings.sum : ℚ) / (p.ratings.length : ℚ) * 10) ≤ 50 := by
      by_contra hc
      push_neg at hc
      have : (51 : ℚ) ≤ (pyRound ((p.ratings.sum : ℚ) / (p.ratings.length : ℚ) * 10) : ℚ) := by
        exact_mod_cast hc
      linarith
    rw [round1]
    have : (pyRound ((p.ratings.sum : ℚ) / (p.ratings.length : ℚ) * 10) : ℚ) ≤ 50 := by
      exact_mod_cast hz
    linarith

/-- `avg_rating` reads only the ratings list. -/
theorem avg_rating_congr {p p' : PlayerProfile} (h : p'.ratings = p.ratings) :
    avg_rating p' = avg_rating p := by
  rw [avg_rating, avg_rating, h]

/-- Transitivity of the recommender's Boolean sort relation. -/
theorem recLE_trans (a b c : RecResult)
    (h1 : decide (b.ai_score ≤ a.ai_score) = true)
    (h2 : decide (c.ai_score ≤ b.ai_score) = true) :
    decide (c.ai_score ≤ a.ai_score) = true :=
  decide_eq_true (le_trans (of_decide_eq_true h2) (of_decide_eq_true h1))

/-- Totality of the recommender's Boolean sort relation. -/
theorem recLE_total (a b : RecResult) :
    (decide (b.ai_score ≤ a.ai_score) || decide (a.ai_score ≤ b.ai_score)) = true := by
  rcases le_total b.ai_score a.ai_score with h | h <;> simp [h]

/-- Transitivity of the matcher's Boolean sort relation. -/
theorem matchLE_trans (a b c : MatchResult)
    (h1 : decide (b.score ≤ a.score) = true)
    (h2 : decide (c.score ≤ b.score) = true) :
    decide (c.score ≤ a.score) = true :=
  decide_eq_true (le_trans (of_decide_eq_true h2) (of_decide_eq_true h1))

/-- Totality of the matcher's Boolean sort relation. -/
theorem matchLE_total (a b : MatchResult) :
    (decide (b.score ≤ a.score) || decide (a.score ≤ b.score)) = true := by
  rcases le_total b.score a.score with h | h <;> simp [h]

/-! ### Concrete scoring inputs used by counterexamples and witnesses -/

/-- Second player of the tie-rounding scenario: matches 8 of the 9
required skills and has no interests; raw score `320/9 + 5 = 365/9 ≈ 40.556`. -/
def tieP1 : PlayerProfile :=
  { id := 2, user_id := 2, sport := "x".data, position := "x".data,
    skills := "a,b,c,d,e,f,g,h".data, experience_years := 0,
    location := [], profile_views := 0, ratings := [], achievements := 0 }

/-- First player of the tie-rounding scenario: matches 7 of the 9 required
skills and has 3 interests; raw score `280/9 + 5 + 4.5 = 731/18 ≈ 40.611`. -/
def tieP2 : PlayerProfile :=
  { id := 1, user_id := 1, sport := "x".data, position := "x".data,
    skills := "a,b,c,d,e,f,g".data, experience_years := 0,
    location := [], profile_views := 0, ratings := [], achievements := 0 }

/-- Requirement with nine skills used by the tie-rounding scenario. -/
def tieReq : TeamRequirement :=
  { sport := "zz".data, position := "zz".data,
    skills_required := "a,b,c,d,e,f,g,h,i".data, min_experience := 0,
    location := [] }

/-- Three interest records for `tieP2` (its `user_id` is 1). -/
def tieInterests : List Interest := [⟨1, 1⟩, ⟨1, 2⟩, ⟨1, 3⟩]

/-- Raw recommendation score of `tieP1`. -/
theorem aiScore_tieP1 : aiScore tieInterests tieReq tieP1 = 365/9 := by
  have hsp : skillPct tieReq tieP1 = 320/9 := by
    rw [skillPct, if_pos (by decide : parseSkills tieReq.skills_required ≠ ∅),
      (by decide : (parseSkills tieReq.skills_required).card = 9),
      (by decide : (parseSkills tieReq.skills_required ∩ parseSkills tieP1.skills).card = 8)]
    norm_num
  have hss : sportScore tieReq tieP1 = 0 := by decide
  have hps : posScore tieReq tieP1 = 0 := by decide
  have hes : expScore tieReq tieP1 = 5 := by norm_num [expScore, tieReq, tieP1]
  have hrs : ratingScore tieP1 = 0 := by norm_num [ratingScore, avg_rating, tieP1]
  have hso : socialScore tieInterests tieP1 = 0 := by
    rw [socialScore, (by decide : interestCount tieInterests tieP1 = 0)]
    norm_num
  have hlc : locScore tieReq tieP1 = 0 := by decide
  rw [aiScore, hsp, hss, hps, hes, hrs, hso, hlc]
  norm_num

/-- Raw recommendation score of `tieP2`. -/
theorem aiScore_tieP2 : aiScore tieInterests tieReq tieP2 = 731/18 := by
  have hsp : skillPct tieReq tieP2 = 280/9 := by
    rw [skillPct, if_pos (by decide : parseSkills tieReq.skills_required ≠ ∅),
      (by decide : (parseSkills tieReq.skills_required).card = 9),
      (by decide : (parseSkills tieReq.skills_required ∩ parseSkills tieP2.skills).card = 7)]
    norm_num
  have hss : sportScore tieReq tieP2 = 0 := by decide
  have hps : posScore tieReq tieP2 = 0 := by decide
  have hes : expScore tieReq tieP2 = 5 := by norm_num [expScore, tieReq, tieP2]
  have hrs : ratingScore tieP2 = 0 := by norm_num [ratingScore, avg_rating, tieP2]
  have hso : socialScore tieInterests tieP2 = 9/2 := by
    rw [socialScore, (by decide : interestCount tieInterests tieP2 = 3)]
    norm_num
  have hlc : locScore tieReq tieP2 = 0 := by decide
  rw [aiScore, hsp, hss, hps, hes, hrs, hso, hlc]
  norm_num

/-- Both raw tie scores round to the same displayed value `40.6`. -/
theorem round1_tieP1 : round1 (365/9) = 203/5 := by
  have h : ⌊(365:ℚ)/9 * 10⌋ = 405 := by norm_num [Int.floor_eq_iff]
  rw [round1, pyRound, h]
  norm_num

/-- Both raw tie scores round to the same displayed value `40.6`. -/
theorem round1_tieP2 : round1 (731/18) = 203/5 := by
  have h : ⌊(731:ℚ)/18 * 10⌋ = 406 := by norm_num [Int.floor_eq_iff]
  rw [round1, pyRound, h]
  norm_num

/-- The tie-rounding store passes both players through the filter, in
input order. -/
theorem recResultsRaw_tie :
    recResultsRaw tieInterests tieReq [tieP1, tieP2]
      = [recEntry tieInterests tieReq tieP1, recEntry tieInterests tieReq tieP2] := by
  rw [recResultsRaw]
  simp only [List.filterMap]
  rw [if_pos (by rw [aiScore_tieP1]; norm_num), if_pos (by rw [aiScore_tieP2]; norm_num)]

/-- The recommender's output on the tie-rounding store: the rounded scores
tie at `40.6`, so the stable sort keeps the input order even though the
raw score of the first entry (`365/9`) is below that of the second
(`731/18`). -/
theorem ai_recommend_tie :
    ai_recommend_players tieInterests tieReq [tieP1, tieP2] 5
      = [recEntry tieInterests tieReq tieP1, recEntry tieInterests tieReq tieP2] := by
  rw [ai_recommend_players, recResultsRaw_tie, List.mergeSort_of_sorted]
  · rfl
  · constructor
    · intro b hb
      simp only [List.mem_singleton] at hb
      subst hb
      simp only [recEntry, aiScore_tieP1, aiScore_tieP2, round1_tieP1, round1_tieP2]
      simp
    · simp

/-! ### Claims -/

/-- C1, counterexample.  The claim says the output of the recommender is
ordered descending by the unrounded `ai_score` and that the 1-decimal
rounding never affects the rank order.  On the tie-rounding store the two
raw scores `365/9 ≈ 40.556` and `731/18 ≈ 40.611` both round to `40.6`,
the code sorts on the rounded value (`app.py` lines 173 and 179), and the
stable sort keeps the lower raw score first — so the output is not
descending by the unrounded score. -/
theorem claim_C1_counterexample :
    ¬ (ai_recommend_players tieInterests tieReq [tieP1, tieP2] 5).Pairwise
        (fun a b => aiScore tieInterests tieReq b.player
          ≤ aiScore tieInterests tieReq a.player) := by
  rw [ai_recommend_tie]
  intro h
  have hrel := List.rel_of_pairwise_cons h (List.mem_singleton.2 rfl)
  have hp1 : (recEntry tieInterests tieReq tieP1).player = tieP1 := rfl
  have hp2 : (recEntry tieInterests tieReq tieP2).player = tieP2 := rfl
  rw [hp1, hp2, aiScore_tieP1, aiScore_tieP2] at hrel
  norm_num at hrel

/-- C1 (amended): for every requirement and player list, the ordering of
`ai_recommend_players`'s output is descending by the STORED `ai_score`,
i.e. the raw sum rounded to 1 decimal — the sort key is the rounded
value, so rounding can affect the rank order; ties in the rounded score
are broken by stable input order, and truncation to `top_n` happens after
this sort. -/
theorem claim_C1 (interests : List Interest) (req : TeamRequirement)
    (players : List PlayerProfile) :
    (∀ top_n, (ai_recommend_players interests req players top_n).Pairwise
        (fun a b => b.ai_score ≤ a.ai_score))
    ∧ (∀ a b, List.Sublist [a, b] (recResultsRaw interests req players) →
        b.ai_score ≤ a.ai_score →
        List.Sublist [a, b] ((recResultsRaw interests req players).mergeSort
          (fun a b => decide (b.ai_score ≤ a.ai_score))))
    ∧ (∀ n m, n ≤ m →
        ai_recommend_players interests req players n
          = (ai_recommend_players interests req players m).take n) := by
  refine ⟨?_, ?_, ?_⟩
  · intro top_n
    have hs := List.sorted_mergeSort recLE_trans recLE_total
      (recResultsRaw interests req players)
    have hp := hs.imp (fun h => of_decide_eq_true h)
    exact hp.sublist (List.take_sublist _ _)
  · intro a b hsub hba
    exact List.pair_sublist_mergeSort recLE_trans recLE_total
      (decide_eq_true hba) hsub
  · intro n m hnm
    rw [ai_recommend_players, ai_recommend_players, List.take_take,
      Nat.min_eq_left hnm]

/-- C1 witness: on the tie-rounding store, the pair of tied entries (both
displayed as `40.6`) stays in input order through the sort. -/
theorem claim_C1_witness :
    List.Sublist
      [recEntry tieInterests tieReq tieP1, recEntry tieInterests tieReq tieP2]
      ((recResultsRaw tieInterests tieReq [tieP1, tieP2]).mergeSort
        (fun a b => decide (b.ai_score ≤ a.ai_score))) :=
  (claim_C1 tieInterests tieReq [tieP1, tieP2]).2.1 _ _
    (by rw [recResultsRaw_tie])
    (by
      have h1 : (recEntry tieInterests tieReq tieP1).ai_score = 203/5 := by
        show round1 (aiScore tieInterests tieReq tieP1) = 203/5
        rw [aiScore_tieP1, round1_tieP1]
      have h2 : (recEntry tieInterests tieReq tieP2).ai_score = 203/5 := by
        show round1 (aiScore tieInterests tieReq tieP2) = 203/5
        rw [aiScore_tieP2, round1_tieP2]
      rw [h1, h2])

/-- C2 (confirmed): `ai_recommend_players` returns at most `top_n`
entries, and every returned entry belongs to a player whose unrounded
`ai_score` is strictly greater than 10; a player with score at most 10
never appears. -/
theorem claim_C2 (interests : List Interest) (req : TeamRequirement)
    (players : List PlayerProfile) (top_n : ℕ) :
    (ai_recommend_players interests req players top_n).length ≤ top_n
    ∧ ∀ e ∈ ai_recommend_players interests req players top_n,
        10 < aiScore interests req e.player := by
  constructor
  · rw [ai_recommend_players]
    exact List.length_take_le _ _
  · intro e he
    rw [ai_recommend_players] at he
    have h1 := (List.take_sublist _ _).subset he
    rw [List.mem_mergeSort, recResultsRaw, List.mem_filterMap] at h1
    obtain ⟨p, _, hf⟩ := h1
    by_cases h : 10 < aiScore interests req p
    · rw [if_pos h] at hf
      obtain rfl : recEntry interests req p = e := Option.some.inj hf
      exact h
    · rw [if_neg h] at hf
      exact Option.noConfusion hf

/-- C2 witness: on the tie-rounding store the output has at most 5
entries and the first entry's player scores above 10. -/
theorem claim_C2_witness :
    (ai_recommend_players tieInterests tieReq [tieP1, tieP2] 5).length ≤ 5
    ∧ 10 < aiScore tieInterests tieReq (recEntry tieInterests tieReq tieP1).player :=
  ⟨(claim_C2 tieInterests tieReq [tieP1, tieP2] 5).1,
   (claim_C2 tieInterests tieReq [tieP1, tieP2] 5).2 _
     (by rw [ai_recommend_tie]; exact List.mem_cons_self _ _)⟩

/-- The spec's worked matcher example (§8): Soccer goalkeeper requirement
with two required skills and minimum experience 2. -/
def exReq : TeamRequirement :=
  { sport := "Soccer".data, position := "Goalkeeper".data,
    skills_required := "reflexes,communication".data, min_experience := 2,
    location := [] }

/-- The spec's worked matcher example (§8): a matching goalkeeper with
three skills, 3 years of experience and average rating 4.0. -/
def exPlayer : PlayerProfile :=
  { id := 1, user_id := 1, sport := "Soccer".data, position := "Goalkeeper".data,
    skills := "reflexes,communication,leadership".data, experience_years := 3,
    location := [], profile_views := 0, ratings := [4], achievements := 0 }

/-- The average rating of the worked example player is 4.0. -/
theorem avg_rating_exPlayer : avg_rating exPlayer = 4 := by
  norm_num [avg_rating, exPlayer, round1, pyRound]

/-- The matcher gives the worked example player score 9. -/
theorem matchScore_ex : matchScore exReq exPlayer = 9 := by
  rw [matchScore, avg_rating_exPlayer]
  norm_num
  decide

/-- The matcher's result entry for the worked example. -/
def exEntry : MatchResult :=
  { player := exPlayer, score := 9,
    matched_skills := parseSkills exReq.skills_required ∩ parseSkills exPlayer.skills,
    total_skills := 2 }

/-- The matcher's full output on the one-player worked example store. -/
theorem match_out : match_players_to_requirement exReq [exPlayer] = [exEntry] := by
  have hraw : matchResultsRaw exReq [exPlayer] = [exEntry] := by
    rw [matchResultsRaw]
    simp only [List.filterMap]
    rw [if_pos (by rw [matchScore_ex]; norm_num), matchScore_ex,
      (by decide : (parseSkills exReq.skills_required).card = 2)]
    rfl
  rw [match_players_to_requirement, hraw, List.mergeSort_singleton]

/-- C3 (confirmed): the matcher returns exactly the players with strictly
positive score (every entry's score is its player's `matchScore` and is
positive, and every positive-scoring player yields an entry), the output
is sorted descending by score, and tied entries keep the stable
pre-sort input order. -/
theorem claim_C3 (req : TeamRequirement) (players : List PlayerProfile) :
    (∀ e ∈ match_players_to_requirement req players,
        e.player ∈ players ∧ e.score = matchScore req e.player ∧ 0 < e.score)
    ∧ (∀ p ∈ players, 0 < matchScore req p →
        ∃ e ∈ match_players_to_requirement req players, e.player = p)
    ∧ (match_players_to_requirement req players).Pairwise
        (fun a b => b.score ≤ a.score)
    ∧ (∀ a b, List.Sublist [a, b] (matchResultsRaw req players) →
        b.score ≤ a.score →
        List.Sublist [a, b] (match_players_to_requirement req players)) := by
  refine ⟨?_, ?_, ?_, ?_⟩
  · intro e he
    rw [match_players_to_requirement, List.mem_mergeSort, matchResultsRaw,
      List.mem_filterMap] at he
    obtain ⟨p, hp, hf⟩ := he
    by_cases h : 0 < matchScore req p
    · rw [if_pos h] at hf
      obtain rfl := Option.some.inj hf
      exact ⟨hp, rfl, h⟩
    · rw [if_neg h] at hf
      exact Option.noConfusion hf
  · intro p hp hpos
    refine ⟨⟨p, matchScore req p,
      parseSkills req.skills_required ∩ parseSkills p.skills,
      (parseSkills req.skills_required).card⟩, ?_, rfl⟩
    rw [match_players_to_requirement, List.mem_mergeSort, matchResultsRaw,
      List.mem_filterMap]
    exact ⟨p, hp, by rw [if_pos hpos]⟩
  · have hs := List.sorted_mergeSort matchLE_trans matchLE_total
      (matchResultsRaw req players)
    exact hs.imp (fun h => of_decide_eq_true h)
  · intro a b hsub hba
    exact List.pair_sublist_mergeSort matchLE_trans matchLE_total
      (decide_eq_true hba) hsub

/-- C3 witness: on the worked example store, the single output entry
belongs to the input player, carries its `matchScore`, and that score is
positive. -/
theorem claim_C3_witness :
    exEntry.player ∈ [exPlayer]
      ∧ exEntry.score = matchScore exReq exEntry.player ∧ 0 < exEntry.score :=
  (claim_C3 exReq [exPlayer]).1 exEntry
    (by rw [match_out]; exact List.mem_cons_self _ _)

/-- C7 (confirmed): on the spec's worked example (§8) the matcher gives
3 points for the sport, 2 for the position, 1 for the experience, 2 for
the two matched skills and 1 rating bonus (4.0 ≥ 3.5), a total of 9. -/
theorem claim_C7 :
    (if lower exPlayer.sport = lower exReq.sport then 3 else 0) = 3
    ∧ (if lower exPlayer.position = lower exReq.position then 2 else 0) = 2
    ∧ (if exReq.min_experience ≤ exPlayer.experience_years then 1 else 0) = 1
    ∧ (parseSkills exReq.skills_required ∩ parseSkills exPlayer.skills).card = 2
    ∧ (if (9:ℚ)/2 ≤ avg_rating exPlayer then 2
       else if (7:ℚ)/2 ≤ avg_rating exPlayer then 1 else 0) = 1
    ∧ matchScore exReq exPlayer = 9 := by
  refine ⟨by decide, by decide, by decide, by decide, ?_, matchScore_ex⟩
  rw [avg_rating_exPlayer]
  norm_num

/-- C8 (confirmed): adding to a player's skills one required skill that it
did not already have — leaving sport, position, experience and ratings
unchanged — raises the matcher score by exactly 1. -/
theorem claim_C8 (req : TeamRequirement) (p p' : PlayerProfile) (s : Str)
    (hs : s ∈ parseSkills req.skills_required)
    (hns : s ∉ parseSkills p.skills)
    (hsport : p'.sport = p.sport) (hposition : p'.position = p.position)
    (hexp : p'.experience_years = p.experience_years)
    (hrat : p'.ratings = p.ratings)
    (hskills : parseSkills p'.skills = insert s (parseSkills p.skills)) :
    matchScore req p' = matchScore req p + 1 := by
  have havg : avg_rating p' = avg_rating p := avg_rating_congr hrat
  have hni : s ∉ parseSkills req.skills_required ∩ parseSkills p.skills :=
    fun hmem => hns (Finset.mem_inter.1 hmem).2
  rw [matchScore, matchScore, hsport, hposition, hexp, havg, hskills,
    Finset.inter_insert_of_mem hs, Finset.card_insert_of_not_mem hni]
  omega

/-- A two-skill requirement for the C8 witness. -/
def growReq : TeamRequirement :=
  { sport := "s".data, position := "g".data, skills_required := "a,b".data,
    min_experience := 0, location := [] }

/-- A player holding only the first required skill. -/
def growP : PlayerProfile :=
  { id := 1, user_id := 1, sport := "s".data, position := "g".data,
    skills := "a".data, experience_years := 0, location := [],
    profile_views := 0, ratings := [], achievements := 0 }

/-- The same player after learning the second required skill. -/
def growP2 : PlayerProfile :=
  { id := 1, user_id := 1, sport := "s".data, position := "g".data,
    skills := "a,b".data, experience_years := 0, location := [],
    profile_views := 0, ratings := [], achievements := 0 }

/-- C8 witness: giving a player with skill `a` the second required skill
`b` raises its score on the two-skill requirement by exactly 1. -/
theorem claim_C8_witness : matchScore growReq growP2 = matchScore growReq growP + 1 :=
  claim_C8 growReq growP growP2 "b".data (by decide) (by decide) rfl rfl rfl rfl
    (by decide)

/-- Everything the matcher adds is non-negative and the experience point
is guaranteed when the requirement asks for no experience, so every score
is at least 1. -/
theorem one_le_matchScore (req : TeamRequirement) (p : PlayerProfile)
    (h : req.min_experience = 0) : 1 ≤ matchScore req p := by
  have hcond : req.min_experience ≤ p.experience_years := by
    rw [h]
    exact Nat.zero_le _
  rw [matchScore, if_pos hcond]
  omega

/-- `matchResultsRaw` keeps a player whose score is positive. -/
theorem matchResultsRaw_cons_pos (req : TeamRequirement) (p : PlayerProfile)
    (ps : List PlayerProfile) (h : 0 < matchScore req p) :
    matchResultsRaw req (p :: ps)
      = ⟨p, matchScore req p,
          parseSkills req.skills_required ∩ parseSkills p.skills,
          (parseSkills req.skills_required).card⟩
        :: matchResultsRaw req ps := by
  rw [matchResultsRaw, List.filterMap_cons, if_pos h]
  rfl

/-- C10 (confirmed): with `min_experience = 0` every player passes the
filter — the experience point alone makes every score at least 1 — so the
matcher returns an entry for every player of the list, and every entry's
score is at least 1. -/
theorem claim_C10 (req : TeamRequirement) (players : List PlayerProfile)
    (h : req.min_experience = 0) :
    (match_players_to_requirement req players).length = players.length
    ∧ (∀ p ∈ players, ∃ e ∈ match_players_to_requirement req players, e.player = p)
    ∧ ∀ e ∈ match_players_to_requirement req players, 1 ≤ e.score := by
  have hpos : ∀ p : PlayerProfile, 0 < matchScore req p :=
    fun p => one_le_matchScore req p h
  refine ⟨?_, ?_, ?_⟩
  · rw [match_players_to_requirement, List.length_mergeSort]
    induction players with
    | nil => rfl
    | cons p ps ih =>
      rw [matchResultsRaw_cons_pos req p ps (hpos p), List.length_cons, ih,
        List.length_cons]
  · intro p hp
    refine ⟨⟨p, matchScore req p,
      parseSkills req.skills_required ∩ parseSkills p.skills,
      (parseSkills req.skills_required).card⟩, ?_, rfl⟩
    rw [match_players_to_requirement, List.mem_mergeSort, matchResultsRaw,
      List.mem_filterMap]
    exact ⟨p, hp, by rw [if_pos (hpos p)]⟩
  · intro e he
    rw [match_players_to_requirement, List.mem_mergeSort, matchResultsRaw,
      List.mem_filterMap] at he
    obtain ⟨p, _, hf⟩ := he
    rw [if_pos (hpos p)] at hf
    obtain rfl := Option.some.inj hf
    exact one_le_matchScore req p h

/-- The worked example requirement with its minimum experience dropped to
zero, for the C10 witness. -/
def exReq0 : TeamRequirement :=
  { sport := "Soccer".data, position := "Goalkeeper".data,
    skills_required := "reflexes,communication".data, min_experience := 0,
    location := [] }

/-- C10 witness: with the zero-experience requirement, the one-player
store yields exactly one entry and it is the input player's. -/
theorem claim_C10_witness :
    (match_players_to_requirement exReq0 [exPlayer]).length = [exPlayer].length
    ∧ ∃ e ∈ match_players_to_requirement exReq0 [exPlayer], e.player = exPlayer :=
  ⟨(claim_C10 exReq0 [exPlayer] rfl).1,
   (claim_C10 exReq0 [exPlayer] rfl).2.1 exPlayer (List.mem_cons_self _ _)⟩

/-- `pyRound` fixes zero. -/
theorem pyRound_zero : pyRound 0 = 0 := by
  rw [pyRound]
  norm_num

/-- A requirement whose skills string parses to no skill tokens (only
whitespace and commas). -/
def emptyReq : TeamRequirement :=
  { sport := "s".data, position := "g".data, skills_required := " , ,".data,
    min_experience := 0, location := [] }

/-- A player whose sport matches `emptyReq`, clearing the 10-point bar. -/
def emptyReqPlayer : PlayerProfile :=
  { id := 1, user_id := 1, sport := "s".data, position := "x".data,
    skills := "a,b".data, experience_years := 0, location := [],
    profile_views := 0, ratings := [], achievements := 0 }

/-- Raw recommendation score against the zero-skill requirement:
0 + 20 + 0 + 5 + 0 + 0 + 0. -/
theorem aiScore_emptyReq : aiScore [] emptyReq emptyReqPlayer = 25 := by
  have hsp : skillPct emptyReq emptyReqPlayer = 0 := by
    rw [skillPct]
    exact if_neg (fun hc => hc (by decide))
  have hss : sportScore emptyReq emptyReqPlayer = 20 := by decide
  have hps : posScore emptyReq emptyReqPlayer = 0 := by decide
  have hes : expScore emptyReq emptyReqPlayer = 5 := by
    norm_num [expScore, emptyReq, emptyReqPlayer]
  have hrs : ratingScore emptyReqPlayer = 0 := by
    norm_num [ratingScore, avg_rating, emptyReqPlayer]
  have hso : socialScore [] emptyReqPlayer = 0 := by
    rw [socialScore, (by decide : interestCount [] emptyReqPlayer = 0)]
    norm_num
  have hlc : locScore emptyReq emptyReqPlayer = 0 := by decide
  rw [aiScore, hsp, hss, hps, hes, hrs, hso, hlc]
  norm_num

/-- The recommender's output on the zero-skill-requirement store. -/
theorem rec_out_emptyReq :
    ai_recommend_players [] emptyReq [emptyReqPlayer] 5
      = [recEntry [] emptyReq emptyReqPlayer] := by
  have hraw : recResultsRaw [] emptyReq [emptyReqPlayer]
      = [recEntry [] emptyReq emptyReqPlayer] := by
    rw [recResultsRaw]
    simp only [List.filterMap]
    rw [if_pos (by rw [aiScore_emptyReq]; norm_num)]
  rw [ai_recommend_players, hraw, List.mergeSort_singleton]
  rfl

/-- C9 (confirmed): when the requirement's skill string parses to no skill
tokens, the skill-match factor is exactly 0 for every player — the code
takes the explicit `else` branch, so no division happens — and every
output entry's breakdown records 0 skill-match points. -/
theorem claim_C9 (interests : List Interest) (req : TeamRequirement)
    (players : List PlayerProfile) (top_n : ℕ) (p : PlayerProfile)
    (h : parseSkills req.skills_required = ∅) :
    skillPct req p = 0
    ∧ ∀ e ∈ ai_recommend_players interests req players top_n,
        e.breakdown.skill_match = 0 := by
  have hz : ∀ q : PlayerProfile, skillPct req q = 0 := fun q => by
    rw [skillPct]
    exact if_neg (fun hc => hc h)
  refine ⟨hz p, ?_⟩
  intro e he
  rw [ai_recommend_players] at he
  have h1 := (List.take_sublist _ _).subset he
  rw [List.mem_mergeSort, recResultsRaw, List.mem_filterMap] at h1
  obtain ⟨q, _, hf⟩ := h1
  by_cases hq : 10 < aiScore interests req q
  · rw [if_pos hq] at hf
    obtain rfl := Option.some.inj hf
    show pyRound (skillPct req q) = 0
    rw [hz q, pyRound_zero]
  · rw [if_neg hq] at hf
    exact Option.noConfusion hf

/-- C9 witness: on the zero-skill-requirement store the matching player's
skill factor and stored breakdown entry are both 0. -/
theorem claim_C9_witness :
    skillPct emptyReq emptyReqPlayer = 0
    ∧ (recEntry [] emptyReq emptyReqPlayer).breakdown.skill_match = 0 :=
  ⟨(claim_C9 [] emptyReq [emptyReqPlayer] 5 emptyReqPlayer (by decide)).1,
   (claim_C9 [] emptyReq [emptyReqPlayer] 5 emptyReqPlayer (by decide)).2 _
     (by rw [rec_out_emptyReq]; exact List.mem_cons_self _ _)⟩

/-- Modelled from the amended claim's words: the number of comma-separated
tokens that are non-empty after trimming, counted with multiplicity. -/
def countTokens (s : Str) : ℕ :=
  ((splitComma s).map trim).countP (fun t => t ≠ [])

/-- Modelled from the amended claim's words: the set of trimmed non-empty
comma-separated tokens, case kept as written. -/
def tokenSet (s : Str) : Finset Str :=
  ((splitComma s).map trim).foldr (fun t acc => if t = [] then acc else insert t acc) ∅

/-- The claim-side token count agrees with the code's `skills_list` length. -/
theorem countTokens_eq (s : Str) : countTokens s = (skills_list s).length := by
  rw [countTokens, skills_list, List.length_map, List.countP_map,
    List.countP_eq_length_filter]
  rfl

/-- The claim-side token set agrees with the code's `skills_list` set. -/
theorem tokenSet_eq (s : Str) : tokenSet s = (skills_list s).toFinset := by
  rw [tokenSet, skills_list]
  induction splitComma s with
  | nil => rfl
  | cons a l ih =>
    by_cases h : trim a = []
    · simp only [List.map_cons, List.foldr_cons, List.filter_cons, h,
        if_pos, ih]
      simp [h]
    · simp only [List.map_cons, List.foldr_cons, List.filter_cons, h,
        if_neg, ih]
      simp [h]

/-- A player whose skills string holds the same token in two spellings,
`"Python,python"`. -/
def dupP1 : PlayerProfile :=
  { id := 1, user_id := 1, sport := "s".data, position := "g".data,
    skills := "Python,python".data, experience_years := 0, location := [],
    profile_views := 0, ratings := [], achievements := 0 }

/-- A player whose skills string is the single token `"python"`. -/
def dupP2 : PlayerProfile :=
  { id := 2, user_id := 2, sport := "s".data, position := "g".data,
    skills := "python".data, experience_years := 0, location := [],
    profile_views := 0, ratings := [], achievements := 0 }

/-- C4, counterexample.  The claim says the comparison's skill sets use
the lowercased parse shared with the matcher.  They do not: the code's
`skills_list` keeps case, so against `"python"` the player with
`"Python,python"` keeps `"Python"` as a unique skill while the lowercased
parse would give no unique skills; and the code's score counts the two
spellings as two skills (6 points) while the claim's parsed set has one
(3 points). -/
theorem claim_C4_counterexample :
    (comparison dupP1 dupP2).p1_unique_skills
        ≠ parseSkills dupP1.skills \ parseSkills dupP2.skills
    ∧ (comparison dupP1 dupP2).p1_score
        ≠ avg_rating dupP1 * 20 + ((min (dupP1.experience_years * 5) 50 : ℕ) : ℚ)
          + ((min ((parseSkills dupP1.skills).card * 3) 30 : ℕ) : ℚ) := by
  constructor
  · decide
  · have h1 : (comparison dupP1 dupP2).p1_score = 6 := by
      show compareScore dupP1 = 6
      rw [compareScore, (by decide : (skills_list dupP1.skills).length = 2)]
      norm_num [avg_rating, dupP1]
    rw [h1, (by decide : (parseSkills dupP1.skills).card = 1)]
    norm_num [avg_rating, dupP1]

/-- C4 (amended): `compare_players` computes `common_skills` and the
unique-skill sets as set intersection/difference over whitespace-trimmed
tokens KEPT IN ORIGINAL CASE (the `skills_list` parse, not the matcher's
lowercased parse), and each player's score is
`avg_rating*20 + min(experience_years*5, 50) + min(skill_count*3, 30)`
where `skill_count` counts the trimmed non-empty tokens with
multiplicity. -/
theorem claim_C4 (p1 p2 : PlayerProfile) :
    comparison p1 p2
      = ⟨tokenSet p1.skills ∩ tokenSet p2.skills,
         tokenSet p1.skills \ tokenSet p2.skills,
         tokenSet p2.skills \ tokenSet p1.skills,
         avg_rating p1 * 20 + ((min (p1.experience_years * 5) 50 : ℕ) : ℚ)
           + ((min (countTokens p1.skills * 3) 30 : ℕ) : ℚ),
         avg_rating p2 * 20 + ((min (p2.experience_years * 5) 50 : ℕ) : ℚ)
           + ((min (countTokens p2.skills * 3) 30 : ℕ) : ℚ)⟩ := by
  rw [comparison, tokenSet_eq, tokenSet_eq, countTokens_eq, countTokens_eq]
  rfl

/-- A player whose skills string repeats one token, `"a,a"`. -/
def aaP : PlayerProfile :=
  { id := 1, user_id := 1, sport := "s".data, position := "g".data,
    skills := "a,a".data, experience_years := 0, location := [],
    profile_views := 0, ratings := [], achievements := 0 }

/-- C5, counterexample.  The claim says the leaderboard's skill count is
the size of the parsed (deduplicated) skill set.  The code counts the
trimmed tokens with multiplicity: for skills `"a,a"` it scores
`min(2*2, 20) = 4` skill points while the parsed set `{a}` would give 2. -/
theorem claim_C5_counterexample :
    composite aaP
      ≠ avg_rating aaP * 20 + ((min (aaP.experience_years * 3) 30 : ℕ) : ℚ)
        + min ((aaP.profile_views : ℚ) * (1/2)) 20
        + ((min ((parseSkills aaP.skills).card * 2) 20 : ℕ) : ℚ)
        + ((min (aaP.achievements * 5) 10 : ℕ) : ℚ) := by
  have h1 : composite aaP = 4 := by
    rw [composite, (by decide : (skills_list aaP.skills).length = 2)]
    norm_num [avg_rating, aaP]
  rw [h1, (by decide : (parseSkills aaP.skills).card = 1)]
  norm_num [avg_rating, aaP]

/-- C5 (amended): the composite leaderboard score equals
`avg_rating*20 + min(exp*3, 30) + min(views*0.5, 20) + min(skill_count*2, 20)
+ min(achievements*5, 10)`, where `skill_count` counts the trimmed
non-empty comma-separated tokens WITH multiplicity (no deduplication). -/
theorem claim_C5 (p : PlayerProfile) :
    composite p
      = avg_rating p * 20 + ((min (p.experience_years * 3) 30 : ℕ) : ℚ)
        + min ((p.profile_views : ℚ) * (1/2)) 20
        + ((min (countTokens p.skills * 2) 20 : ℕ) : ℚ)
        + ((min (p.achievements * 5) 10 : ℕ) : ℚ) := by
  rw [composite, countTokens_eq]

/-- The skill factor never exceeds 40. -/
theorem skillPct_le (req : TeamRequirement) (p : PlayerProfile) :
    skillPct req p ≤ 40 := by
  rw [skillPct]
  split_ifs with h
  · have hm : (parseSkills req.skills_required ∩ parseSkills p.skills).card
        ≤ (parseSkills req.skills_required).card :=
      Finset.card_le_card Finset.inter_subset_left
    have hr : 0 < ((parseSkills req.skills_required).card : ℚ) := by
      have := Finset.card_pos.2 (Finset.nonempty_iff_ne_empty.2 h)
      exact_mod_cast this
    have hdiv : ((parseSkills req.skills_required ∩ parseSkills p.skills).card : ℚ)
        / ((parseSkills req.skills_required).card : ℚ) ≤ 1 := by
      rw [div_le_one hr]
      exact_mod_cast hm
    linarith
  · norm_num

/-- The experience factor never exceeds 10. -/
theorem expScore_le (req : TeamRequirement) (p : PlayerProfile) :
    expScore req p ≤ 10 := by
  rw [expScore]
  split_ifs with h1 h2
  · have hmin : min ((p.experience_years : ℚ) / (req.min_experience : ℚ)) 2 ≤ 2 :=
      min_le_right _ _
    linarith
  · norm_num
  · norm_num

/-- The rating factor never exceeds 10 when ratings are at most 5 stars. -/
theorem ratingScore_le (p : PlayerProfile) (h : ∀ r ∈ p.ratings, r ≤ 5) :
    ratingScore p ≤ 10 := by
  rw [ratingScore]
  linarith [avg_rating_le_five p h]

/-- The social factor never exceeds 5. -/
theorem socialScore_le (interests : List Interest) (p : PlayerProfile) :
    socialScore interests p ≤ 5 := by
  rw [socialScore]
  exact min_le_right _ _

/-- The sport factor never exceeds 20. -/
theorem sportScore_le (req : TeamRequirement) (p : PlayerProfile) :
    (sportScore req p : ℚ) ≤ 20 := by
  rw [sportScore]
  split_ifs <;> norm_num

/-- The position factor never exceeds 15. -/
theorem posScore_le (req : TeamRequirement) (p : PlayerProfile) :
    (posScore req p : ℚ) ≤ 15 := by
  rw [posScore]
  split_ifs <;> norm_num

/-- The location factor never exceeds 5. -/
theorem locScore_le (req : TeamRequirement) (p : PlayerProfile) :
    (locScore req p : ℚ) ≤ 5 := by
  rw [locScore]
  split_ifs <;> norm_num

/-- The seven factor caps 40+20+15+10+10+5+5 sum to 105. -/
theorem aiScore_le_105 (interests : List Interest) (req : TeamRequirement)
    (p : PlayerProfile) (h : ∀ r ∈ p.ratings, r ≤ 5) :
    aiScore interests req p ≤ 105 := by
  rw [aiScore]
  linarith [skillPct_le req p, sportScore_le req p, posScore_le req p,
    expScore_le req p, ratingScore_le p h, socialScore_le interests p,
    locScore_le req p]

/-- A requirement every one of whose factors the matching player maxes. -/
def maxReq : TeamRequirement :=
  { sport := "s".data, position := "g".data, skills_required := "a".data,
    min_experience := 1, location := "x".data }

/-- A player attaining every factor cap against `maxReq`. -/
def maxPlayer : PlayerProfile :=
  { id := 1, user_id := 1, sport := "s".data, position := "g".data,
    skills := "a".data, experience_years := 2, location := "x".data,
    profile_views := 0, ratings := [5], achievements := 0 }

/-- Four interest records for `maxPlayer`, capping the social factor. -/
def maxInterests : List Interest := [⟨1, 1⟩, ⟨1, 2⟩, ⟨1, 3⟩, ⟨1, 4⟩]

/-- The cap 105 is attained: 40 + 20 + 15 + 10 + 10 + 5 + 5. -/
theorem aiScore_max : aiScore maxInterests maxReq maxPlayer = 105 := by
  have hsp : skillPct maxReq maxPlayer = 40 := by
    rw [skillPct, if_pos (by decide : parseSkills maxReq.skills_required ≠ ∅),
      (by decide : (parseSkills maxReq.skills_required).card = 1),
      (by decide : (parseSkills maxReq.skills_required ∩ parseSkills maxPlayer.skills).card = 1)]
    norm_num
  have hss : sportScore maxReq maxPlayer = 20 := by decide
  have hps : posScore maxReq maxPlayer = 15 := by decide
  have hes : expScore maxReq maxPlayer = 10 := by
    norm_num [expScore, maxReq, maxPlayer]
  have hrs : ratingScore maxPlayer = 10 := by
    norm_num [ratingScore, avg_rating, maxPlayer, round1, pyRound]
  have hso : socialScore maxInterests maxPlayer = 5 := by
    rw [socialScore, (by decide : interestCount maxInterests maxPlayer = 4)]
    norm_num
  have hlc : locScore maxReq maxPlayer = 5 := by decide
  rw [aiScore, hsp, hss, hps, hes, hrs, hso, hlc]
  norm_num

/-- C6, counterexample.  The claim says the unrounded `ai_score` has
theoretical maximum 110 attained by some input.  The seven factor caps are
40, 20, 15, 10, 10, 5 and 5, which sum to 105, so no input with valid
(≤ 5 star) ratings ever reaches 110. -/
theorem claim_C6_counterexample :
    ¬ ∃ (interests : List Interest) (req : TeamRequirement) (p : PlayerProfile),
        (∀ r ∈ p.ratings, r ≤ 5) ∧ aiScore interests req p = 110 := by
  rintro ⟨i, r, p, hv, h110⟩
  have hle := aiScore_le_105 i r p hv
  rw [h110] at hle
  norm_num at hle

/-- C6 (amended): the unrounded `ai_score` has theoretical maximum 105 —
bounded by 105 for every input whose ratings are at most 5 stars, and
attained by a concrete input — and every output entry's confidence equals
`min(round(ai_score), 100)` computed from its player's unrounded score. -/
theorem claim_C6 :
    (∀ (interests : List Interest) (req : TeamRequirement) (p : PlayerProfile),
        (∀ r ∈ p.ratings, r ≤ 5) → aiScore interests req p ≤ 105)
    ∧ aiScore maxInterests maxReq maxPlayer = 105
    ∧ ∀ (interests : List Interest) (req : TeamRequirement)
        (players : List PlayerProfile) (top_n : ℕ) (e : RecResult),
        e ∈ ai_recommend_players interests req players top_n →
        e.confidence = min (pyRound (aiScore interests req e.player)) 100 := by
  refine ⟨aiScore_le_105, aiScore_max, ?_⟩
  intro interests req players top_n e he
  rw [ai_recommend_players] at he
  have h1 := (List.take_sublist _ _).subset he
  rw [List.mem_mergeSort, recResultsRaw, List.mem_filterMap] at h1
  obtain ⟨q, _, hf⟩ := h1
  by_cases hq : 10 < aiScore interests req q
  · rw [if_pos hq] at hf
    obtain rfl := Option.some.inj hf
    rfl
  · rw [if_neg hq] at hf
    exact Option.noConfusion hf

/-- The recommender's output on the cap-attaining store. -/
theorem rec_out_max :
    ai_recommend_players maxInterests maxReq [maxPlayer] 5
      = [recEntry maxInterests maxReq maxPlayer] := by
  have hraw : recResultsRaw maxInterests maxReq [maxPlayer]
      = [recEntry maxInterests maxReq maxPlayer] := by
    rw [recResultsRaw]
    simp only [List.filterMap]
    rw [if_pos (by rw [aiScore_max]; norm_num)]
  rw [ai_recommend_players, hraw, List.mergeSort_singleton]
  rfl

/-- C6 witness: the bound applies to the cap-attaining player, and that
entry's confidence is the clamp of its rounded raw score. -/
theorem claim_C6_witness :
    aiScore maxInterests maxReq maxPlayer ≤ 105
    ∧ (recEntry maxInterests maxReq maxPlayer).confidence
        = min (pyRound (aiScore maxInterests maxReq
            (recEntry maxInterests maxReq maxPlayer).player)) 100 :=
  ⟨claim_C6.1 maxInterests maxReq maxPlayer (by decide),
   claim_C6.2.2 maxInterests maxReq [maxPlayer] 5 _
     (by rw [rec_out_max]; exact List.mem_cons_self _ _)⟩

end SportsLink
